import Mathlib

/-!
Verification of the STL/OBJ processing pipeline
(`mediagoblin/media_types/stl/processing.py`).

Python strings are modelled as `List Char`, Python floats as `ℚ` (the file
only performs field arithmetic, comparisons and square roots on them), and
fallible Python code as `Option` (with `none` standing for a raised
exception).  `math.sqrt` / `math.hypot` are modelled through an abstract
square-root function `sq : ℚ → ℚ` supplied as a parameter; where a concrete
value of a square root matters, a hypothesis pins `sq` to the value the real
square root takes there.
-/

namespace StlProc

/-- Python strings, as lists of characters. -/
abbrev PyStr := List Char

/-- Coerce a Lean string literal to the model's string type. -/
def pyStr (s : String) : PyStr := s.data

/-- The characters Python's default `str.strip()` removes. -/
def isPySpace (c : Char) : Bool :=
  c = ' ' || c = '\t' || c = '\n' || c = '\r' || c = '\x0b' || c = '\x0c'

/-- Python `s.lstrip()`. -/
def pyLStrip (s : PyStr) : PyStr := s.dropWhile isPySpace

/-- Python `s.rstrip()`. -/
def pyRStrip (s : PyStr) : PyStr := (s.reverse.dropWhile isPySpace).reverse

/-- Python `s.strip()`. -/
def pyStrip (s : PyStr) : PyStr := pyLStrip (pyRStrip s)

/-- Python `s.lower()`. -/
def pyLower (s : PyStr) : PyStr := s.map Char.toLower

/-- Model of Python: `pyStartsWith s p` is Python `s.startswith(p)`. -/
def pyStartsWith : PyStr → PyStr → Bool
  | _, [] => true
  | [], _ :: _ => false
  | c :: s, p :: ps => (p = c) && pyStartsWith s ps

/-- Model of Python: `pyContains s sub` is Python `sub in s` (substring test). -/
def pyContains : PyStr → PyStr → Bool
  | [], sub => pyStartsWith [] sub
  | c :: rest, sub => pyStartsWith (c :: rest) sub || pyContains rest sub

/-- Worker for `pySplit`; `acc` holds the current chunk reversed.  The
`fuel` argument only forces structural recursion: every step consumes at
least one character, so starting it at the string's length makes the
fuel-exhausted branch unreachable. -/
def pySplitAux (sep : PyStr) : ℕ → PyStr → PyStr → List PyStr
  | _, [], acc => [acc.reverse]
  | 0, s, acc => [acc.reverse ++ s]
  | fuel + 1, c :: rest, acc =>
    if pyStartsWith (c :: rest) sep then
      acc.reverse :: pySplitAux sep fuel (List.drop (sep.length - 1) rest) []
    else
      pySplitAux sep fuel rest (c :: acc)

/-- Python `s.split(sep)` for a non-empty separator `sep`. -/
def pySplit (s sep : PyStr) : List PyStr := pySplitAux sep s.length s []

/-- Is `c` a decimal digit? -/
def isDigitCh (c : Char) : Bool := '0' ≤ c && c ≤ '9'

/-- Numeric value of a digit string (junk on non-digits; guarded by callers). -/
def digitsToNat (s : PyStr) : ℕ := s.foldl (fun a c => 10 * a + (c.toNat - 48)) 0

/-- Python `float(s)` restricted to finite plain decimal literals
(optional sign, digits, at most one decimal point); `none` models the
`ValueError` Python raises on anything unparsable.  Exponent notation and
`inf`/`nan` are outside the inputs this file reasons about. -/
def pyFloat (s : PyStr) : Option ℚ :=
  let t := pyStrip s
  let signed : ℚ × PyStr :=
    match t with
    | '+' :: r => (1, r)
    | '-' :: r => (-1, r)
    | _ => (1, t)
  match pySplit signed.2 ['.'] with
  | [ip] =>
    if ip ≠ [] && ip.all isDigitCh then some (signed.1 * digitsToNat ip) else none
  | [ip, fp] =>
    if (ip ≠ [] || fp ≠ []) && ip.all isDigitCh && fp.all isDigitCh then
      some (signed.1 * ((digitsToNat ip : ℚ) + (digitsToNat fp : ℚ) / 10 ^ fp.length))
    else none
  | _ => none

/-! ## GCodeEstimator (`processing.py` lines 69-160) -/

/-- The mutable locals of `GCodeEstimator.estimate` that survive an iteration
(`moveduration` is always freshly assigned before being read, so it is not
carried).  `layerbeginduration` is carried for faithfulness although the
method never returns it. -/
structure EstState where
  lastx : ℚ
  lasty : ℚ
  lastz : ℚ
  laste : ℚ
  lastf : ℚ
  x : ℚ
  y : ℚ
  z : ℚ
  e : ℚ
  f : ℚ
  totalduration : ℚ
  layerbeginduration : ℚ
  layercount : ℕ
  deriving DecidableEq

/-- The zero-initialised state at the top of `estimate`. -/
def estInit : EstState :=
  { lastx := 0, lasty := 0, lastz := 0, laste := 0, lastf := 0
    x := 0, y := 0, z := 0, e := 0, f := 0
    totalduration := 0, layerbeginduration := 0, layercount := 0 }

/-- Source lines 86-90, `get_coordinate_value(axis, parts)`: scans the parts for one
containing the axis letter and calls `float(part[1:])`.  Inner `none` is
Python's `None` (axis absent); outer `none` is a raised `ValueError`. -/
def get_coordinate_value (axis : Char) : List PyStr → Option (Option ℚ)
  | [] => some none
  | p :: ps =>
    if pyContains p [axis] then (pyFloat (p.drop 1)).map some
    else get_coordinate_value axis ps

/-- Model of `math.hypot a b = sqrt (a² + b²)`, through the abstract square root. -/
def hypot2 (sq : ℚ → ℚ) (a b : ℚ) : ℚ := sq (a ^ 2 + b ^ 2)

/-- Source lines 92-93, `hypot3d`: `math.hypot(X2-X1, math.hypot(Y2-Y1, Z2-Z1))`. -/
def hypot3d (sq : ℚ → ℚ) (x1 y1 z1 x2 y2 z2 : ℚ) : ℚ :=
  hypot2 sq (x2 - x1) (hypot2 sq (y2 - y1) (z2 - z1))

/-- The kinematic core of a `G1` move (lines 139-145), with
`acceleration = 1500`.  `none` models the `ValueError` `math.sqrt` raises on
a negative argument. -/
def moveDurationCode (sq : ℚ → ℚ) (lastf f currenttravel : ℚ) : Option ℚ :=
  let distance := 2 * ((lastf + f) * (f - lastf) * (1 / 2)) / 1500
  if distance ≤ currenttravel ∧ lastf + f ≠ 0 ∧ f ≠ 0 then
    some (2 * distance / (lastf + f) + (currenttravel - distance) / f)
  else
    if 2 * distance / 1500 < 0 then none
    else some (sq (2 * distance / 1500))

/-- The tail of each processed iteration (lines 147-158): accumulate the move
duration, bump the layer counter when the new `z` exceeds the tracked `z`,
and roll the current axis values into the `last*` slots. -/
def finishMove (st : EstState) (x y z e f md : ℚ) : EstState :=
  let td := st.totalduration + md
  { lastx := x, lasty := y, lastz := z, laste := e, lastf := f
    x := x, y := y, z := z, e := e, f := f
    totalduration := td
    layerbeginduration := if st.lastz < z then td else st.layerbeginduration
    layercount := if st.lastz < z then st.layercount + 1 else st.layercount }

/-- The `"G1" in i` branch (lines 120-145): parse the axis words, defaulting
to the previous values, convert `F` from mm/min to mm/s, and run the
kinematic model over the 3-D travel. -/
def g1Part (sq : ℚ → ℚ) (st : EstState) (parts : List PyStr) : Option EstState := do
  let ox ← get_coordinate_value 'X' parts
  let oy ← get_coordinate_value 'Y' parts
  let oz ← get_coordinate_value 'Z' parts
  let oe ← get_coordinate_value 'E' parts
  let oF ← get_coordinate_value 'F' parts
  let x := ox.getD st.lastx
  let y := oy.getD st.lasty
  let z := oz.getD st.lastz
  let e := oe.getD st.laste
  let f := match oF with | none => st.lastf | some v => v / 60
  let currenttravel := hypot3d sq x y z st.lastx st.lasty st.lastz
  match moveDurationCode sq st.lastf f currenttravel with
  | none => none
  | some md => some (finishMove st x y z e f md)

/-- One iteration of the `estimate` loop (lines 110-158) on an
already-`strip`ped line: truncate at `;`, dispatch on the substrings `"G4"`
and `"G1"`, and process.  `some st` with the state unchanged models both a
skipped line and the `continue` taken when `G4` has no `P` word. -/
def stepLine (sq : ℚ → ℚ) (st : EstState) (line : PyStr) : Option EstState :=
  let i := (pySplit line [';']).headD []
  if pyContains i (pyStr "G4") || pyContains i (pyStr "G1") then
    let parts := (pySplit i [' ']).tail
    if pyContains i (pyStr "G4") then
      match get_coordinate_value 'P' parts with
      | none => none
      | some none => some st
      | some (some p) =>
        if pyContains i (pyStr "G1") then g1Part sq st parts
        else some (finishMove st st.x st.y st.z st.e st.f (p / 1000))
    else g1Part sq st parts
  else some st

/-- Run the `estimate` loop over a list of lines. -/
def estRun (sq : ℚ → ℚ) : EstState → List PyStr → Option EstState
  | st, [] => some st
  | st, l :: ls =>
    match stepLine sq st l with
    | none => none
    | some st' => estRun sq st' ls

/-- The method `GCodeEstimator(filename).estimate()`: the constructor applies `strip` to every
line of the file (line 71), and the method returns
`(layercount, totalduration)` (line 160). -/
def estimate (sq : ℚ → ℚ) (lines : List PyStr) : Option (ℕ × ℚ) :=
  (estRun sq estInit (lines.map pyStrip)).map fun st => (st.layercount, st.totalduration)

/-- Source lines 73-84, `GCodeEstimator.totalelength`: the separate `G92`-based
filament bookkeeping (never called by the pipeline). -/
def totalelengthAux : ℚ × ℚ → List PyStr → ℚ
  | (tot, _), [] => tot
  | (tot, cur), i :: rest =>
    if pyContains i ['E'] && (pyContains i (pyStr "G1") || pyContains i (pyStr "G0")) then
      let parsed :=
        ((pySplit i ['E']).get? 1).bind fun s => pyFloat ((pySplit s [' ']).headD [])
      totalelengthAux (tot, parsed.getD cur) rest
    else if pyContains i (pyStr "G92") && pyContains i (pyStr "E0") then
      totalelengthAux (tot + cur, cur) rest
    else
      totalelengthAux (tot, cur) rest

/-- The method `totalelength(g)`. -/
def totalelength (g : List PyStr) : ℚ := totalelengthAux (0, 0) g

/-- A stand-in square root agreeing with the real square root on the
arguments that arise in this file's concrete runs (`0` and `100`). -/
def sqrtStub : ℚ → ℚ := fun q => if q = 100 then 10 else 0

/-! ## Slicer adapter output parsing (`slicer`, lines 237-244) -/

/-- The two extractions performed on a matching (already `rstrip`ped) line:
`line.split("required: ")[1].split("mm (")[0]` and
`line.split("mm (")[1].split("cm3)")[0]`.  `none` models the `IndexError`
raised when the `[1]` index does not exist. -/
def extractFilament (r : PyStr) : Option (PyStr × PyStr) :=
  match (pySplit r (pyStr "required: ")).get? 1 with
  | none => none
  | some s1 =>
    match (pySplit r (pyStr "mm (")).get? 1 with
    | none => none
    | some s2 =>
      some ((pySplit s1 (pyStr "mm (")).headD [], (pySplit s2 (pyStr "cm3)")).headD [])

/-- The `for line in subpr.stdout` loop.  The accumulator starts at
`(none, none)`, modelling the integer `0` defaults of `filament_length` and
`plastic_volume`; every matching line overwrites both components.  Outer
`none` models an uncaught `IndexError`. -/
def slicerScan : Option PyStr × Option PyStr → List PyStr →
    Option (Option PyStr × Option PyStr)
  | acc, [] => some acc
  | acc, l :: ls =>
    if pyContains (pyRStrip l) (pyStr "Filament required") then
      match extractFilament (pyRStrip l) with
      | none => none
      | some (fl, pv) => slicerScan (some fl, some pv) ls
    else slicerScan acc ls

/-- What `slicer` returns as `(filament_length, plastic_volume)`, as a
function of the slicing subprocess's standard-output lines. -/
def slicerParse (lines : List PyStr) : Option (Option PyStr × Option PyStr) :=
  slicerScan (none, none) lines

/-! ## Extension derivation (`process_stl`, lines 260-264) -/

/-- Python `s[-n:]`. -/
def lastN (s : PyStr) (n : ℕ) : PyStr := s.drop (s.length - n)

/-- Source lines 260-264: `ext = queued_filename.lower().strip()[-4:]`, then keep the tail after a
leading dot, else `None`. -/
def deriveExt (queued_filename : PyStr) : Option PyStr :=
  let ext := lastN (pyStrip (pyLower queued_filename)) 4
  if pyStartsWith ext ['.'] then some (ext.drop 1) else none

/-! ## The orchestrator `process_stl` (lines 246-396)

External effects are supplied as oracles: the geometry loader's outcome, the
per-shot success of the five Blender renders (a shot "fails" when anything
in `snap` raises, including the output-file existence assert), the slicing
subprocess's standard output, the existence of the sliced toolpath file, and
that file's lines.  Storage reads/writes are modelled as succeeding, and a
`create_pub_filepath` location is identified by the filename template it was
built from.  The function returns `none` when an uncaught exception escapes
`process_stl`. -/

/-- What `model_loader.auto_detect` reports about the geometry. -/
structure ModelInfo where
  width : ℚ
  height : ℚ
  depth : ℚ
  averageX : ℚ
  averageY : ℚ
  averageZ : ℚ

/-- The keyword arguments handed to `entry.media_data_init` (lines 381-395). -/
structure MediaData where
  center_x : ℚ
  center_y : ℚ
  center_z : ℚ
  width : ℚ
  height : ℚ
  depth : ℚ
  filament_length : Option PyStr
  plastic_volume : Option PyStr
  layer_count : ℕ
  total_duration : ℚ
  file_type : Option PyStr
  blender_thumbs : Bool

/-- The slice of the media entry the pipeline reads and mutates. -/
structure Entry where
  queued_media_file : Option PyStr
  media_files : String → Option String
  media_data : Option MediaData

/-- The external collaborators of one `process_stl` run. -/
structure Collab where
  sq : ℚ → ℚ
  modelLoad : Option ModelInfo
  renderOk : ℕ → Bool
  slicerStdout : List PyStr
  gcodeExists : Bool
  gcodeLines : List PyStr

/-- Store a value under a key of the `media_files` dict. -/
def setKey (m : String → Option String) (k v : String) : String → Option String :=
  fun k' => if k' = k then some v else m k'

/-- The five preview keys, in the order the dict assignments happen
(lines 374-378). -/
def fiveKeys : List String := ["thumb", "perspective", "top", "side", "front"]

/-- Whether all five camera shots succeed; on the first failure the `except`
catches and the remaining shots are not attempted, and no preview key is
recorded (lines 327-353). -/
def allShotsOk (c : Collab) : Bool :=
  c.renderOk 0 && c.renderOk 1 && c.renderOk 2 && c.renderOk 3 && c.renderOk 4

/-- The `media_data_init` keyword arguments of a completed run
(lines 380-395). -/
def finalMediaData (c : Collab) (qname : PyStr) (m : ModelInfo)
    (fl pv : Option PyStr) (lc : ℕ) (td : ℚ) : MediaData :=
  { center_x := m.averageX, center_y := m.averageY, center_z := m.averageZ
    width := m.width, height := m.height, depth := m.depth
    filament_length := fl, plastic_volume := pv
    layer_count := lc, total_duration := td
    file_type := deriveExt qname, blender_thumbs := allShotsOk c }

/-- The media entry at the end of a completed run (lines 365-395): queued
source cleared, `original` and `gcode` always recorded, the five preview
keys recorded only when the whole preview batch succeeded. -/
def finalEntry (c : Collab) (entry : Entry) (qname : PyStr) (m : ModelInfo)
    (fl pv : Option PyStr) (lc : ℕ) (td : ℚ) : Entry :=
  let mf := setKey (setKey entry.media_files "original" "{basename}{ext}")
    "gcode" "{basename}.gcode"
  let mf :=
    if allShotsOk c then
      setKey (setKey (setKey (setKey (setKey mf
        "thumb" "{basename}.thumb.jpg")
        "perspective" "{basename}.perspective.jpg")
        "top" "{basename}.top.jpg")
        "side" "{basename}.side.jpg")
        "front" "{basename}.front.jpg"
    else mf
  { queued_media_file := none
    media_files := mf
    media_data := some (finalMediaData c qname m fl pv lc td) }

/-- The orchestrator `process_stl(proc_state)`. -/
def processStl (c : Collab) (entry : Entry) : Option Entry :=
  match entry.queued_media_file with
  | none => none
  | some qname =>
    match c.modelLoad with
    | none => none
    | some m =>
      match slicerParse c.slicerStdout with
      | none => none
      | some (fl, pv) =>
        if c.gcodeExists = false then none
        else
          match estimate c.sq c.gcodeLines with
          | none => none
          | some (lc, td) => some (finalEntry c entry qname m fl pv lc td)

/-- The seven keys of `media_files` after a fully successful run
(lines 370-378): note the toolpath artifact is stored under the literal
key `gcode`. -/
def sevenKeys : List String :=
  ["original", "gcode", "thumb", "perspective", "top", "side", "front"]

/-- An unprocessed entry: queued source present, no derived files yet. -/
def entryW : Entry :=
  { queued_media_file := some (pyStr "model.stl")
    media_files := fun _ => none
    media_data := none }

/-- A happy-path collaborator set: cube geometry, all renders succeed, the
slicer reports fixed filament stats, and the toolpath is a single move. -/
def cH : Collab :=
  { sq := sqrtStub
    modelLoad := some ⟨10, 10, 10, 5, 5, 5⟩
    renderOk := fun _ => true
    slicerStdout := [pyStr "Filament required: 123.45mm (4.56cm3)"]
    gcodeExists := true
    gcodeLines := [pyStr "G1 X10 F600"] }

/-- The same collaborators except the third of the five camera shots
raises. -/
def cFail3 : Collab := { cH with renderOk := fun k => decide (k ≠ 2) }

/-! ## Spec-side formulas -/

/-- The accel distance exactly as the specification words it:
`accel_distance = (f_prev + f_new) * (f_new - f_prev) / acceleration` with
`acceleration = 1500`. -/
def specAccelDistance (fprev fnew : ℚ) : ℚ := (fprev + fnew) * (fnew - fprev) / 1500

/-- The claim's hypothesis "the `G1` moves never increase `z`", evaluated
along the run: at every successful step the new `z` is at most the
previously tracked `z` (a run that raises is vacuously non-increasing from
the point of the raise). -/
def zNonIncreasingRun (sq : ℚ → ℚ) : EstState → List PyStr → Bool
  | _, [] => true
  | st, l :: ls =>
    match stepLine sq st l with
    | none => true
    | some st' => decide (st'.z ≤ st.lastz) && zNonIncreasingRun sq st' ls

/-- The amended extension rule: on the lower-cased, stripped filename, a
3-character extension is recognized when the 4th-from-last character is a
dot; a name of fewer than 4 characters yields whatever follows a leading
dot; anything else (including 4-character extensions such as `jpeg`) yields
`None`. -/
def specDeriveExt3 (name : PyStr) : Option PyStr :=
  let s := pyStrip (pyLower name)
  if 4 ≤ s.length then
    if (s.reverse.drop 3).headD ' ' = '.' then some (s.reverse.take 3).reverse
    else none
  else
    if s.headD ' ' = '.' then some (s.drop 1) else none

/-! Rat's arithmetic is `@[irreducible]`, which blocks `decide` on concrete
estimator runs; restore the default reducibility locally so closed runs can
be evaluated by the kernel. -/
set_option allowUnsafeReducibility true
attribute [local semireducible] Rat.add Rat.mul Rat.div Rat.sub Rat.inv Rat.neg

/-! ## Helper lemmas -/

/-- A line whose comment-stripped text contains neither `"G4"` nor `"G1"`
is skipped: the loop body leaves the whole state untouched. -/
theorem stepLine_skip (sq : ℚ → ℚ) (st : EstState) (l : PyStr)
    (h : (pyContains ((pySplit l [';']).headD []) (pyStr "G4") ||
      pyContains ((pySplit l [';']).headD []) (pyStr "G1")) = false) :
    stepLine sq st l = some st := by
  simp only [stepLine]
  rw [h]
  rfl

/-- Any single line that dispatches as a pure `G1` move with words
`X10 F600` runs the kinematic model with feed rates 0 → 10 and travel
`hypot3d 10 0 0 0 0 0`; under the real square root's values at 0 and 100
the estimate is `(0, 151/150)`. -/
theorem estimate_single_x10_f600 (sq : ℚ → ℚ) (h0 : sq 0 = 0) (h100 : sq 100 = 10)
    (l : PyStr)
    (hl : stepLine sq estInit (pyStrip l) =
      match moveDurationCode sq 0 10 (hypot3d sq 10 0 0 0 0 0) with
      | none => none
      | some md => some (finishMove estInit 10 0 0 0 10 md)) :
    estimate sq [l] = some (0, 151 / 150) := by
  have htrav : hypot3d sq 10 0 0 0 0 0 = 10 := by
    unfold hypot3d hypot2
    norm_num [h0, h100]
  have hmd : moveDurationCode sq 0 10 10 = some (151 / 150) := by
    simp only [moveDurationCode]
    rw [if_pos (by norm_num)]
    norm_num
  rw [htrav, hmd] at hl
  unfold estimate
  simp only [List.map_cons, List.map_nil]
  unfold estRun
  rw [hl]
  unfold estRun
  simp only [Option.map_some']
  unfold finishMove estInit
  norm_num

/-! ## Theorems -/

/-- Every successful `g1Part` step ends in a `finishMove`. -/
theorem g1Part_shape (sq : ℚ → ℚ) (st : EstState) (parts : List PyStr)
    (st' : EstState) (h : g1Part sq st parts = some st') :
    ∃ x y z e f md, st' = finishMove st x y z e f md := by
  unfold g1Part at h
  rcases hx : get_coordinate_value 'X' parts with _ | ox <;> rw [hx] at h
  · simp at h
  rcases hy : get_coordinate_value 'Y' parts with _ | oy <;> rw [hy] at h
  · simp at h
  rcases hz : get_coordinate_value 'Z' parts with _ | oz <;> rw [hz] at h
  · simp at h
  rcases he : get_coordinate_value 'E' parts with _ | oe <;> rw [he] at h
  · simp at h
  rcases hf : get_coordinate_value 'F' parts with _ | oF <;> rw [hf] at h
  · simp at h
  simp only [Option.pure_def, Option.bind_eq_bind, Option.some_bind] at h
  split at h
  · exact absurd h (by simp)
  · exact ⟨_, _, _, _, _, _, (Option.some.inj h).symm⟩

/-- Every successful step either skips the line (state unchanged) or ends
in a `finishMove`. -/
theorem stepLine_cases (sq : ℚ → ℚ) (st : EstState) (l : PyStr) (st' : EstState)
    (h : stepLine sq st l = some st') :
    st' = st ∨ ∃ x y z e f md, st' = finishMove st x y z e f md := by
  simp only [stepLine] at h
  split at h
  · split at h
    · split at h
      · exact absurd h (by simp)
      · exact Or.inl (Option.some.inj h).symm
      · split at h
        · exact Or.inr (g1Part_shape sq st _ st' h)
        · exact Or.inr ⟨_, _, _, _, _, _, (Option.some.inj h).symm⟩
    · exact Or.inr (g1Part_shape sq st _ st' h)
  · exact Or.inl (Option.some.inj h).symm

/-- A successful step whose new `z` does not exceed the tracked `z` leaves
`layercount` unchanged. -/
theorem stepLine_layercount_le (sq : ℚ → ℚ) (st : EstState) (l : PyStr)
    (st' : EstState) (h : stepLine sq st l = some st') (hz : st'.z ≤ st.lastz) :
    st'.layercount = st.layercount := by
  rcases stepLine_cases sq st l st' h with rfl | ⟨x, y, z, e, f, md, rfl⟩
  · rfl
  · have hzz : (finishMove st x y z e f md).z = z := by simp [finishMove]
    rw [hzz] at hz
    simp [finishMove, not_lt.mpr hz]

/-- Over a `z`-non-increasing successful run the layer counter is constant. -/
theorem estRun_layercount_const (sq : ℚ → ℚ) :
    ∀ (lines : List PyStr) (st st' : EstState),
      estRun sq st lines = some st' →
      zNonIncreasingRun sq st lines = true →
      st'.layercount = st.layercount := by
  intro lines
  induction lines with
  | nil =>
    intro st st' h _
    exact congrArg EstState.layercount (Option.some.inj h).symm
  | cons l ls ih =>
    intro st st' h hz
    unfold estRun at h
    unfold zNonIncreasingRun at hz
    rcases hstep : stepLine sq st l with _ | st1 <;> rw [hstep] at h hz
    · exact absurd h (by simp)
    · rw [Bool.and_eq_true, decide_eq_true_eq] at hz
      rw [ih st1 st' h hz.2, stepLine_layercount_le sq st l st1 hstep hz.1]

/-- Claim C5: the estimator increments `layer_count` exactly when a
processed instruction's new `z` strictly exceeds the previously tracked
`z`; consequently, on any toolpath whose moves never increase `z`, the
returned `layer_count` is 0. -/
theorem claim_C5_layer_count :
    (∀ (sq : ℚ → ℚ) (st : EstState) (l : PyStr) (st' : EstState),
      st.z = st.lastz → stepLine sq st l = some st' →
      st'.layercount = st.layercount + (if st.lastz < st'.z then 1 else 0)) ∧
    (∀ (sq : ℚ → ℚ) (lines : List PyStr) (lc : ℕ) (td : ℚ),
      estimate sq lines = some (lc, td) →
      zNonIncreasingRun sq estInit (lines.map pyStrip) = true →
      lc = 0) := by
  constructor
  · intro sq st l st' hzz h
    rcases stepLine_cases sq st l st' h with rfl | ⟨x, y, z, e, f, md, rfl⟩
    · rw [← hzz]
      simp [lt_irrefl]
    · have hzv : (finishMove st x y z e f md).z = z := by simp [finishMove]
      rw [hzv]
      by_cases hlt : st.lastz < z
      · simp [finishMove, hlt]
      · simp [finishMove, hlt]
  · intro sq lines lc td h hz
    unfold estimate at h
    rcases hrun : estRun sq estInit (lines.map pyStrip) with _ | st' <;>
      rw [hrun] at h
    · exact absurd h (by simp)
    · simp only [Option.map_some'] at h
      have hlc : st'.layercount = lc := congrArg Prod.fst (Option.some.inj h)
      rw [← hlc, estRun_layercount_const sq _ estInit st' hrun hz]
      rfl

/-- Claim C5 witness: a run with a move that keeps `z` at 0 has layer
count 0. -/
theorem claim_C5_witness :
    (zNonIncreasingRun sqrtStub estInit ([pyStr "G1 X10 F600"].map pyStrip) = true) ∧
      (0 : ℕ) = 0 :=
  ⟨by decide, claim_C5_layer_count.2 sqrtStub [pyStr "G1 X10 F600"] 0 (151 / 150)
    (by decide) (by decide)⟩

/-- Claim C1: every `G1` move's duration follows the two-branch kinematic
model with acceleration 1500 mm/s²: with
`accel_distance = (f_prev + f_new) * (f_new - f_prev) / 1500`, if that
distance is at most the travel and `f_prev + f_new ≠ 0` and `f_new ≠ 0`,
the duration is `2 * accel_distance / (f_prev + f_new) +
(travel - accel_distance) / f_new`, and otherwise it is
`sqrt (2 * accel_distance / 1500)`; in particular a single `G1 X10 F600`
from rest yields exactly the first-branch value for feed rates 0 → 10 mm/s
and travel 10 mm. -/
theorem claim_C1_g1_kinematics :
    (∀ (sq : ℚ → ℚ) (fprev fnew travel : ℚ),
      specAccelDistance fprev fnew ≤ travel ∧ fprev + fnew ≠ 0 ∧ fnew ≠ 0 →
      moveDurationCode sq fprev fnew travel =
        some (2 * specAccelDistance fprev fnew / (fprev + fnew) +
          (travel - specAccelDistance fprev fnew) / fnew)) ∧
    (∀ (sq : ℚ → ℚ) (fprev fnew travel : ℚ),
      ¬(specAccelDistance fprev fnew ≤ travel ∧ fprev + fnew ≠ 0 ∧ fnew ≠ 0) →
      0 ≤ specAccelDistance fprev fnew →
      moveDurationCode sq fprev fnew travel =
        some (sq (2 * specAccelDistance fprev fnew / 1500))) ∧
    (∀ sq : ℚ → ℚ, sq 0 = 0 → sq 100 = 10 →
      estimate sq [pyStr "G1 X10 F600"] =
        some (0, 2 * specAccelDistance 0 10 / (0 + 10) +
          (10 - specAccelDistance 0 10) / 10)) := by
  have hd : ∀ fprev fnew : ℚ,
      2 * ((fprev + fnew) * (fnew - fprev) * (1 / 2)) / 1500 =
        specAccelDistance fprev fnew := by
    intro fprev fnew; unfold specAccelDistance; ring
  refine ⟨?_, ?_, ?_⟩
  · intro sq fprev fnew travel h
    simp only [moveDurationCode, hd]
    rw [if_pos h]
  · intro sq fprev fnew travel h h0
    simp only [moveDurationCode, hd]
    rw [if_neg h, if_neg (not_lt.mpr (by linarith))]
  · intro sq h0 h100
    rw [estimate_single_x10_f600 sq h0 h100 (pyStr "G1 X10 F600") rfl]
    norm_num [specAccelDistance]

/-- Claim C1 witness: the concrete single-move run, with the square-root
stub taking the real square root's values at 0 and 100. -/
theorem claim_C1_witness :
    estimate sqrtStub [pyStr "G1 X10 F600"] = some (0, 151 / 150) := by
  have h := claim_C1_g1_kinematics.2.2 sqrtStub (by decide) (by decide)
  rw [h]
  norm_num [specAccelDistance]

/-- Claim C9 counterexample: `estimate` is not total.  On the toolpath
`G1 X10 F600` then `G1 F0`, the second move has accel distance
`(10 + 0) * (0 - 10) / 1500 < 0`, the first branch's guard fails because
the new feed rate is 0, and the fallback square root receives a negative
argument — Python's `math.sqrt` raises `ValueError` there. -/
theorem claim_C9_counterexample :
    estimate sqrtStub [pyStr "G1 X10 F600", pyStr "G1 F0"] = none := by decide

/-- Claim C9 (amended): the fallback square root is *not* always evaluated
on a non-negative accel distance: whenever a `G1` with new feed rate 0 and
zero travel follows a move with positive feed rate, the kinematic core
evaluates `sqrt` on a negative argument and raises. -/
theorem claim_C9_sqrt_negative (sq : ℚ → ℚ) (fprev : ℚ) (h : 0 < fprev) :
    moveDurationCode sq fprev 0 0 = none := by
  simp only [moveDurationCode]
  rw [if_neg (by simp), if_pos (by nlinarith)]

/-- Claim C9 witness for the amended statement. -/
theorem claim_C9_witness :
    0 < (10 : ℚ) ∧ moveDurationCode sqrtStub 10 0 0 = none :=
  ⟨by norm_num, claim_C9_sqrt_negative sqrtStub 10 (by norm_num)⟩

/-- Scanning lines none of which contains `"Filament required"` leaves the
accumulator untouched. -/
theorem slicerScan_no_match (acc : Option PyStr × Option PyStr) (L : List PyStr)
    (h : ∀ l ∈ L, pyContains (pyRStrip l) (pyStr "Filament required") = false) :
    slicerScan acc L = some acc := by
  induction L with
  | nil => rfl
  | cons l ls ih =>
    simp only [slicerScan]
    rw [h l (by simp)]
    exact ih fun l' hl' => h l' (by simp [hl'])

/-- Scanning decomposes over list append. -/
theorem slicerScan_append (acc : Option PyStr × Option PyStr) (L1 L2 : List PyStr) :
    slicerScan acc (L1 ++ L2) =
      (slicerScan acc L1).bind fun a => slicerScan a L2 := by
  induction L1 generalizing acc with
  | nil => rfl
  | cons l ls ih =>
    simp only [List.cons_append, slicerScan]
    by_cases hm : pyContains (pyRStrip l) (pyStr "Filament required") = true
    · rw [hm]
      rcases he : extractFilament (pyRStrip l) with _ | ⟨fl, pv⟩ <;> simp [ih]
    · rw [Bool.not_eq_true] at hm
      rw [hm]
      simp only [Bool.false_eq_true, if_false]
      exact ih acc

/-- Claim C3 counterexample: with two matching lines on standard output the
adapter returns the extraction of the *last* one, not the first. -/
theorem claim_C3_counterexample :
    slicerParse [pyStr "Filament required: 1.0mm (2.0cm3)",
        pyStr "Filament required: 3.0mm (4.0cm3)"] =
      some (some (pyStr "3.0"), some (pyStr "4.0")) ∧
    slicerParse [pyStr "Filament required: 1.0mm (2.0cm3)",
        pyStr "Filament required: 3.0mm (4.0cm3)"] ≠
      some (some (pyStr "1.0"), some (pyStr "2.0")) := by
  constructor
  · decide
  · decide

/-- Claim C3 (amended): the adapter scans standard output line by line for
the literal substring `"Filament required"`, and returns the values
extracted from the **last** such line (each matching line overwrites the
previous extraction): filament length is the text between `"required: "`
and `"mm ("` and extruded volume the text between `"mm ("` and `"cm3)"`
(the stated `123.45` / `4.56` example behaves exactly so); if no line
matches, both values are returned as the integer zero and this is not an
error. -/
theorem claim_C3_filament_parsing :
    (∀ (L1 : List PyStr) (l : PyStr) (L2 : List PyStr)
      (acc : Option PyStr × Option PyStr) (fl pv : PyStr),
      slicerScan (none, none) L1 = some acc →
      pyContains (pyRStrip l) (pyStr "Filament required") = true →
      extractFilament (pyRStrip l) = some (fl, pv) →
      (∀ l' ∈ L2, pyContains (pyRStrip l') (pyStr "Filament required") = false) →
      slicerParse (L1 ++ l :: L2) = some (some fl, some pv)) ∧
    slicerParse [pyStr "Filament required: 123.45mm (4.56cm3)"] =
      some (some (pyStr "123.45"), some (pyStr "4.56")) ∧
    (∀ L : List PyStr,
      (∀ l' ∈ L, pyContains (pyRStrip l') (pyStr "Filament required") = false) →
      slicerParse L = some (none, none)) := by
  refine ⟨?_, by decide, fun L h => slicerScan_no_match _ L h⟩
  intro L1 l L2 acc fl pv h1 hm he h2
  unfold slicerParse
  rw [slicerScan_append, h1]
  show slicerScan acc (l :: L2) = _
  simp only [slicerScan]
  rw [hm, he]
  exact slicerScan_no_match _ L2 h2

/-- Claim C3 witness: last-match extraction applied at a concrete standard
output with leading and trailing non-matching lines. -/
theorem claim_C3_witness :
    slicerParse [pyStr "Processing input.stl",
        pyStr "Filament required: 123.45mm (4.56cm3)", pyStr "Done."] =
      some (some (pyStr "123.45"), some (pyStr "4.56")) :=
  claim_C3_filament_parsing.1 [pyStr "Processing input.stl"] _ [pyStr "Done."]
    (none, none) _ _ (by decide) (by decide) (by decide) (by decide)

/-- Python `(u ++ v)[-len(v):] = v`. -/
theorem lastN_append (u v : PyStr) : lastN (u ++ v) v.length = v := by
  unfold lastN
  rw [List.length_append, Nat.add_sub_cancel, List.drop_left]

/-- Claim C4 counterexample: a 4-character extension is *not* derived — the
code keeps only the last 4 characters and requires the first of them to be
the dot, so `model.jpeg` yields `None` while `model.stl` yields `stl`. -/
theorem claim_C4_counterexample :
    deriveExt (pyStr "model.jpeg") = none ∧
    deriveExt (pyStr "model.jpeg") ≠ some (pyStr "jpeg") ∧
    deriveExt (pyStr "model.stl") = some (pyStr "stl") := by
  refine ⟨by decide, by decide, by decide⟩

/-- Claim C4 (amended): the derived extension is the lower-cased trailing
**3** characters that follow a dot sitting 4th from the end of the
lower-cased stripped filename; a filename shorter than 4 characters yields
whatever follows a leading dot; everything else — including 4-character
extensions such as `jpeg` — yields `None`. -/
theorem claim_C4_extension_rule (name : PyStr) :
    deriveExt name = specDeriveExt3 name := by
  simp only [deriveExt, specDeriveExt3]
  generalize pyStrip (pyLower name) = s
  rw [show s = s.reverse.reverse from (List.reverse_reverse s).symm]
  generalize s.reverse = r
  rcases r with _ | ⟨a, _ | ⟨b, _ | ⟨c, _ | ⟨d, t⟩⟩⟩⟩
  · decide
  · by_cases ha : a = '.' <;>
      simp [lastN, pyStartsWith, ha, eq_comm, List.reverse_reverse]
  · by_cases hb : b = '.' <;>
      simp [lastN, pyStartsWith, hb, eq_comm, List.reverse_reverse]
  · by_cases hc : c = '.' <;>
      simp [lastN, pyStartsWith, hc, eq_comm, List.reverse_reverse]
  · have hlast : lastN (a :: b :: c :: d :: t).reverse 4 = [d, c, b, a] := by
      have hsplit : (a :: b :: c :: d :: t).reverse = t.reverse ++ [d, c, b, a] := by
        simp
      rw [hsplit]
      exact lastN_append t.reverse [d, c, b, a]
    rw [hlast]
    by_cases hd : d = '.' <;>
      simp [pyStartsWith, hd, eq_comm, List.reverse_reverse, List.length_reverse,
        Nat.le_add_left]

/-- Claim C6: the estimator is a deterministic pure function of the file's
instruction lines (and the abstract square root); the embedding has no other
inputs because the source reads nothing but the file — its only mention of
wall-clock time sits in a commented-out debug print.  Two runs on the same
instruction sequence return the same `(layer_count, total_duration)`. -/
theorem claim_C6_deterministic (sq : ℚ → ℚ) (lines1 lines2 : List PyStr)
    (h : lines1 = lines2) : estimate sq lines1 = estimate sq lines2 := by
  rw [h]

/-- Claim C6 witness: two runs on the same concrete toolpath coincide. -/
theorem claim_C6_witness :
    estimate sqrtStub [pyStr "G1 X10 F600", pyStr "G4 P200"] =
      estimate sqrtStub [pyStr "G1 X10 F600", pyStr "G4 P200"] :=
  claim_C6_deterministic sqrtStub _ _ rfl

/-- Inserting a line that every state skips does not change a run. -/
theorem estRun_skip_insert (sq : ℚ → ℚ) (m : PyStr)
    (hm : ∀ st : EstState, stepLine sq st m = some st) :
    ∀ (A : List PyStr) (st : EstState) (B : List PyStr),
      estRun sq st (A ++ m :: B) = estRun sq st (A ++ B) := by
  intro A
  induction A with
  | nil =>
    intro st B
    show estRun sq st (m :: B) = estRun sq st B
    have h1 : estRun sq st (m :: B) =
        match stepLine sq st m with
        | none => none
        | some st' => estRun sq st' B := rfl
    rw [h1, hm st]
  | cons a A' ih =>
    intro st B
    simp only [List.cons_append]
    unfold estRun
    rcases stepLine sq st a with _ | st1
    · rfl
    · exact ih st1 B

/-- Claim C8: `G92` instructions never affect the estimator's result — a
`G92` line (one whose comment-stripped text contains `"G92"` but, like any
well-formed `G92` instruction such as `G92 E0`, neither `"G1"` nor `"G4"`)
can be inserted at any position without changing `(layer_count,
total_duration)`; `G92 E0` itself satisfies those conditions; and the
filament length recorded on the media record is exactly the slicer
adapter's parse result, never the estimator's separate `totalelength`
bookkeeping (the estimator returns only the layer count and duration). -/
theorem claim_C8_g92_no_effect :
    (∀ (sq : ℚ → ℚ) (pre post : List PyStr) (l : PyStr),
      pyContains ((pySplit (pyStrip l) [';']).headD []) (pyStr "G92") = true →
      pyContains ((pySplit (pyStrip l) [';']).headD []) (pyStr "G1") = false →
      pyContains ((pySplit (pyStrip l) [';']).headD []) (pyStr "G4") = false →
      estimate sq (pre ++ l :: post) = estimate sq (pre ++ post)) ∧
    (pyContains ((pySplit (pyStrip (pyStr "G92 E0")) [';']).headD [])
        (pyStr "G92") = true ∧
      pyContains ((pySplit (pyStrip (pyStr "G92 E0")) [';']).headD [])
        (pyStr "G1") = false ∧
      pyContains ((pySplit (pyStrip (pyStr "G92 E0")) [';']).headD [])
        (pyStr "G4") = false) ∧
    (∀ (c : Collab) (entry : Entry) (e' : Entry) (md : MediaData),
      processStl c entry = some e' → e'.media_data = some md →
      slicerParse c.slicerStdout = some (md.filament_length, md.plastic_volume)) := by
  refine ⟨?_, by refine ⟨by decide, by decide, by decide⟩, ?_⟩
  · intro sq pre post l hg92 hg1 hg4
    have hm : ∀ st : EstState, stepLine sq st (pyStrip l) = some st := by
      intro st
      apply stepLine_skip
      rw [hg1, hg4]
      rfl
    unfold estimate
    rw [List.map_append, List.map_cons, List.map_append,
      estRun_skip_insert sq (pyStrip l) hm]
  · intro c entry e' md h hmd
    unfold processStl at h
    rcases hq : entry.queued_media_file with _ | qname <;> rw [hq] at h
    · simp at h
    rcases hml : c.modelLoad with _ | m <;> rw [hml] at h
    · simp at h
    rcases hs : slicerParse c.slicerStdout with _ | ⟨fl, pv⟩ <;> rw [hs] at h
    · simp at h
    rcases hex : c.gcodeExists <;> rw [hex] at h
    · simp at h
    rcases hest : estimate c.sq c.gcodeLines with _ | ⟨lc, td⟩ <;> rw [hest] at h
    · simp at h
    simp only [Option.some.injEq, reduceIte] at h
    rw [if_neg (show ¬(true = false) by simp)] at h
    obtain rfl := (Option.some.inj h).symm
    obtain rfl := (Option.some.inj hmd).symm
    rfl

/-- Claim C8 witness: inserting `G92 E0` after a move leaves the result
unchanged. -/
theorem claim_C8_witness :
    estimate sqrtStub [pyStr "G1 X10 F600", pyStr "G92 E0"] =
      estimate sqrtStub [pyStr "G1 X10 F600"] :=
  claim_C8_g92_no_effect.1 sqrtStub [pyStr "G1 X10 F600"] [] (pyStr "G92 E0")
    (by decide) (by decide) (by decide)

/-- A run whose loader, slicer, and estimator all succeed completes with
the `finalEntry` record, whatever the five renders did. -/
theorem processStl_run (c : Collab) (entry : Entry) (q : PyStr) (m : ModelInfo)
    (fl pv : Option PyStr) (lc : ℕ) (td : ℚ)
    (hq : entry.queued_media_file = some q) (hml : c.modelLoad = some m)
    (hs : slicerParse c.slicerStdout = some (fl, pv)) (hex : c.gcodeExists = true)
    (hest : estimate c.sq c.gcodeLines = some (lc, td)) :
    processStl c entry = some (finalEntry c entry q m fl pv lc td) := by
  unfold processStl
  rw [hq, hml, hs, hex, hest]
  rfl

/-- If all five shots succeed, `allShotsOk` holds, and conversely. -/
theorem allShotsOk_iff (c : Collab) :
    allShotsOk c = true ↔ ∀ k, k < 5 → c.renderOk k = true := by
  constructor
  · intro hB
    simp only [allShotsOk, Bool.and_eq_true] at hB
    obtain ⟨⟨⟨⟨h0, h1⟩, h2⟩, h3⟩, h4⟩ := hB
    intro k hk
    interval_cases k <;> assumption
  · intro hall
    simp only [allShotsOk, Bool.and_eq_true]
    exact ⟨⟨⟨⟨hall 0 (by norm_num), hall 1 (by norm_num)⟩, hall 2 (by norm_num)⟩,
      hall 3 (by norm_num)⟩, hall 4 (by norm_num)⟩

/-- Claim C2: the five preview renders behave as one atomic batch.  On any
run where loading, slicing and estimation succeed and the record starts
with no derived files: if any of the five shots fails, none of the five
preview keys is recorded and `blender_thumbs` is false, yet the run still
completes (slicing and finalization proceed, `gcode` and `original` are
recorded); if all five succeed, all five keys are recorded and the flag is
true; and in the final record the flag is true exactly when all five keys
are present. -/
theorem claim_C2_preview_batch_atomic :
    ∀ (c : Collab) (entry : Entry) (q : PyStr) (m : ModelInfo)
      (fl pv : Option PyStr) (lc : ℕ) (td : ℚ),
      entry.queued_media_file = some q →
      (∀ key, entry.media_files key = none) →
      c.modelLoad = some m →
      slicerParse c.slicerStdout = some (fl, pv) →
      c.gcodeExists = true →
      estimate c.sq c.gcodeLines = some (lc, td) →
      ∃ (e' : Entry) (md : MediaData),
        processStl c entry = some e' ∧
        e'.media_data = some md ∧
        ((∃ k, k < 5 ∧ c.renderOk k = false) →
          md.blender_thumbs = false ∧ ∀ key ∈ fiveKeys, e'.media_files key = none) ∧
        ((∀ k, k < 5 → c.renderOk k = true) →
          md.blender_thumbs = true ∧
            ∀ key ∈ fiveKeys, (e'.media_files key).isSome = true) ∧
        (md.blender_thumbs = true ↔
          ∀ key ∈ fiveKeys, (e'.media_files key).isSome = true) ∧
        (e'.media_files "gcode").isSome = true ∧
        (e'.media_files "original").isSome = true := by
  intro c entry q m fl pv lc td hq hinit hml hs hex hest
  refine ⟨finalEntry c entry q m fl pv lc td, finalMediaData c q m fl pv lc td,
    processStl_run c entry q m fl pv lc td hq hml hs hex hest, rfl, ?_⟩
  have hbt : (finalMediaData c q m fl pv lc td).blender_thumbs = allShotsOk c := rfl
  by_cases hB : allShotsOk c = true
  · have hall := (allShotsOk_iff c).mp hB
    have hfive : ∀ key ∈ fiveKeys,
        ((finalEntry c entry q m fl pv lc td).media_files key).isSome = true := by
      intro key hkey
      simp only [fiveKeys, List.mem_cons, List.not_mem_nil, or_false] at hkey
      rcases hkey with rfl | rfl | rfl | rfl | rfl <;>
        simp [finalEntry, setKey, hB]
    refine ⟨?_, fun _ => ⟨hbt.trans hB, hfive⟩, ?_, ?_, ?_⟩
    · rintro ⟨k, hk, hfalse⟩
      rw [hall k hk] at hfalse
      cases hfalse
    · exact ⟨fun _ => hfive, fun _ => hbt.trans hB⟩
    · simp [finalEntry, setKey, hB]
    · simp [finalEntry, setKey, hB]
  · rw [Bool.not_eq_true] at hB
    have hnone : ∀ key ∈ fiveKeys,
        (finalEntry c entry q m fl pv lc td).media_files key = none := by
      intro key hkey
      simp only [fiveKeys, List.mem_cons, List.not_mem_nil, or_false] at hkey
      rcases hkey with rfl | rfl | rfl | rfl | rfl <;>
        simp [finalEntry, setKey, hB, hinit]
    refine ⟨fun _ => ⟨hbt.trans hB, hnone⟩, ?_, ?_, ?_, ?_⟩
    · intro hall
      have := (allShotsOk_iff c).mpr hall
      rw [this] at hB
      cases hB
    · constructor
      · intro hbt'
        rw [hbt, hB] at hbt'
        cases hbt'
      · intro hfive
        have h1 := hfive "thumb" (by simp [fiveKeys])
        rw [hnone "thumb" (by simp [fiveKeys])] at h1
        cases h1
    · simp [finalEntry, setKey, hB]
    · simp [finalEntry, setKey, hB]

/-- Claim C2 witness: with the third shot failing, the run still completes,
the flag is false and no preview key is present. -/
theorem claim_C2_witness :
    ∃ (e' : Entry) (md : MediaData),
      processStl cFail3 entryW = some e' ∧ e'.media_data = some md ∧
      md.blender_thumbs = false ∧
      (∀ key ∈ fiveKeys, e'.media_files key = none) ∧
      (e'.media_files "gcode").isSome = true := by
  obtain ⟨e', md, h1, h2, h3, _, _, h6, _⟩ :=
    claim_C2_preview_batch_atomic cFail3 entryW (pyStr "model.stl") ⟨10, 10, 10, 5, 5, 5⟩
      (some (pyStr "123.45")) (some (pyStr "4.56")) 0 (151 / 150)
      rfl (fun _ => rfl) rfl (by decide) rfl (by decide)
  obtain ⟨hf, hkeys⟩ := h3 ⟨2, by norm_num, by decide⟩
  exact ⟨e', md, h1, h2, hf, hkeys, h6⟩

/-- Claim C7 counterexample: on a fully successful happy-path run the
derived-files mapping has **no** `toolpath` key — the toolpath artifact is
recorded under the literal key `gcode` — so the mapping does not consist of
the seven keys named in the claim. -/
theorem claim_C7_counterexample :
    (processStl cH entryW).map (fun e => e.media_files "toolpath") = some none ∧
    (processStl cH entryW).map (fun e => (e.media_files "gcode").isSome) =
      some true ∧
    (processStl cH entryW).map (fun e => e.media_data.map MediaData.blender_thumbs) =
      some (some true) := by
  refine ⟨by decide, by decide, by decide⟩

/-- Claim C7 (amended): on the happy path (geometry load, all five renders
and slicing succeed, record initially has no derived files), the finished
record's derived-files mapping contains exactly the seven keys `original`,
`gcode` (the toolpath artifact), `thumb`, `perspective`, `top`, `side`,
`front`; the queued source reference is cleared and `blender_thumbs` is
true. -/
theorem claim_C7_happy_path :
    ∀ (c : Collab) (entry : Entry) (q : PyStr) (m : ModelInfo)
      (fl pv : Option PyStr) (lc : ℕ) (td : ℚ),
      entry.queued_media_file = some q →
      (∀ key, entry.media_files key = none) →
      c.modelLoad = some m →
      slicerParse c.slicerStdout = some (fl, pv) →
      c.gcodeExists = true →
      estimate c.sq c.gcodeLines = some (lc, td) →
      (∀ k, k < 5 → c.renderOk k = true) →
      ∃ (e' : Entry) (md : MediaData),
        processStl c entry = some e' ∧
        (∀ key, (e'.media_files key).isSome = true ↔ key ∈ sevenKeys) ∧
        e'.queued_media_file = none ∧
        e'.media_data = some md ∧
        md.blender_thumbs = true := by
  intro c entry q m fl pv lc td hq hinit hml hs hex hest hall
  have hB : allShotsOk c = true := (allShotsOk_iff c).mpr hall
  refine ⟨finalEntry c entry q m fl pv lc td, finalMediaData c q m fl pv lc td,
    processStl_run c entry q m fl pv lc td hq hml hs hex hest, ?_, rfl, rfl, hB⟩
  intro key
  simp only [finalEntry, setKey, hB, if_true, sevenKeys, List.mem_cons,
    List.not_mem_nil, or_false]
  split_ifs with h1 h2 h3 h4 h5 h6 h7 <;> simp_all [hinit key]

/-- Claim C7 witness for the amended statement: the happy-path collaborators
produce exactly the seven keys. -/
theorem claim_C7_witness :
    ∃ (e' : Entry) (md : MediaData),
      processStl cH entryW = some e' ∧
      (∀ key, (e'.media_files key).isSome = true ↔ key ∈ sevenKeys) ∧
      e'.queued_media_file = none ∧
      e'.media_data = some md ∧
      md.blender_thumbs = true :=
  claim_C7_happy_path cH entryW (pyStr "model.stl") ⟨10, 10, 10, 5, 5, 5⟩
    (some (pyStr "123.45")) (some (pyStr "4.56")) 0 (151 / 150)
    rfl (fun _ => rfl) rfl (by decide) rfl (by decide) (fun _ _ => rfl)

/-- Claim C10: dispatch is by substring containment on the comment-stripped
line: a line containing neither `"G4"` nor `"G1"` changes nothing (so a `G0`
rapid move contributes no duration and no state change), while a line
containing `"G1"` anywhere — such as one starting with `G17` or `G10` — is
processed as a linear move (`G17 X10 F600` produces exactly the `G1 X10
F600` duration). -/
theorem claim_C10_substring_dispatch :
    (∀ (sq : ℚ → ℚ) (st : EstState) (l : PyStr),
      (pyContains ((pySplit l [';']).headD []) (pyStr "G4") ||
        pyContains ((pySplit l [';']).headD []) (pyStr "G1")) = false →
      stepLine sq st l = some st) ∧
    (∀ sq : ℚ → ℚ, estimate sq [pyStr "G0 X10 F600"] = some (0, 0)) ∧
    (∀ sq : ℚ → ℚ, sq 0 = 0 → sq 100 = 10 →
      estimate sq [pyStr "G17 X10 F600"] = some (0, 151 / 150)) ∧
    pyContains (pyStr "G10") (pyStr "G1") = true ∧
    pyContains (pyStr "G17") (pyStr "G1") = true ∧
    pyContains (pyStr "G0 X10 F600") (pyStr "G1") = false ∧
    pyContains (pyStr "G0 X10 F600") (pyStr "G4") = false := by
  refine ⟨stepLine_skip, ?_, ?_, by decide, by decide, by decide, by decide⟩
  · intro sq
    rfl
  · intro sq h0 h100
    exact estimate_single_x10_f600 sq h0 h100 (pyStr "G17 X10 F600") rfl

/-- Claim C10 witness: the skip lemma and the linear-move branch applied at
concrete inputs. -/
theorem claim_C10_witness :
    stepLine sqrtStub estInit (pyStr "G0 X10 F600") = some estInit ∧
    estimate sqrtStub [pyStr "G17 X10 F600"] = some (0, 151 / 150) :=
  ⟨claim_C10_substring_dispatch.1 sqrtStub estInit (pyStr "G0 X10 F600") (by decide),
    claim_C10_substring_dispatch.2.2.1 sqrtStub (by decide) (by decide)⟩

end StlProc
